import Mathlib

set_option maxRecDepth 16384

/-!
Verification of the packet schema model of `telemetry_f1_2021`.

The source code (`src/telemetry_f1_2021/packets.py`) defines every packet as a
`ctypes.LittleEndianStructure` subclass with `_pack_ = 1` (tightly packed, no
padding, little-endian).  Decoding is `cls.from_buffer_copy(buffer)` — a raw
memory copy of the first `ctypes.sizeof(cls)` bytes of the buffer, which raises
`ValueError` when the buffer is shorter.  Encoding is `bytes(self)` — a copy of
the object's memory.  Field access reads the little-endian value stored at the
field's fixed offset.

We embed this shallowly:
  * a buffer is a `List Nat` of byte values (each `< 256` where it matters);
  * a packet class is its flattened list of field widths (in bytes), taken
    field by field from the `_fields_` tables in the source;
  * `ctypes.sizeof` of a `_pack_ = 1` structure is the sum of those widths;
  * `from_buffer_copy` / `bytes` are modelled by `from_buffer_copy` /
    `PacketMixin_pack` below; field reads and field assignment are modelled by
    `readFields` / `writeFields` over the object's memory.
-/

/-- Little-endian byte encoding of a value `v` into `w` bytes.  Models how a
ctypes integer field of width `w` is laid out in the structure's memory. -/
def leBytes : Nat → Nat → List Nat
  | 0, _ => []
  | w + 1, v => v % 256 :: leBytes w (v / 256)

/-- Little-endian value of a byte list.  Models reading a ctypes integer field
from the structure's memory. -/
def leVal : List Nat → Nat
  | [] => 0
  | b :: bs => b + 256 * leVal bs

theorem leBytes_length (w v : Nat) : (leBytes w v).length = w := by
  induction w generalizing v with
  | zero => rfl
  | succ w ih => simp [leBytes, ih]

theorem leVal_leBytes (w v : Nat) (h : v < 2 ^ (8 * w)) :
    leVal (leBytes w v) = v := by
  induction w generalizing v with
  | zero =>
    have hv : v = 0 := by simpa using h
    subst hv
    rfl
  | succ w ih =>
    have h256 : (0 : Nat) < 256 := by norm_num
    have hsplit : 2 ^ (8 * (w + 1)) = 2 ^ (8 * w) * 256 := by
      rw [Nat.mul_succ, Nat.pow_add]
    have hdiv : v / 256 < 2 ^ (8 * w) := by
      rw [Nat.div_lt_iff_lt_mul h256]
      rw [hsplit] at h
      exact h
    simp only [leBytes, leVal]
    rw [ih (v / 256) hdiv]
    exact Nat.mod_add_div v 256

theorem leBytes_leVal (bs : List Nat) (h : ∀ b ∈ bs, b < 256) :
    leBytes bs.length (leVal bs) = bs := by
  induction bs with
  | nil => rfl
  | cons b bs ih =>
    have hb : b < 256 := h b (List.mem_cons_self b bs)
    have hrest : ∀ x ∈ bs, x < 256 := fun x hx => h x (List.mem_cons_of_mem b hx)
    simp only [List.length_cons, leBytes, leVal]
    have h1 : (b + 256 * leVal bs) % 256 = b := by
      rw [Nat.add_mul_mod_self_left]
      exact Nat.mod_eq_of_lt hb
    have h2 : (b + 256 * leVal bs) / 256 = leVal bs := by
      rw [Nat.add_mul_div_left b (leVal bs) (by norm_num : (0:Nat) < 256)]
      rw [Nat.div_eq_of_lt hb, Nat.zero_add]
    rw [h1, h2, ih hrest]

/-- `ctypes.sizeof` of a `_pack_ = 1` little-endian structure: the sum of the
widths of its flattened fields (no padding).  Models `PacketMixin.size`. -/
def structSize (ws : List Nat) : Nat := ws.sum

/-- Reading all fields of a structure from its memory: for each declared width,
read that many bytes little-endian and advance.  Models ctypes field getters
(`getattr(self, field)` for integer fields). -/
def readFields : List Nat → List Nat → List Nat
  | [], _ => []
  | w :: ws, bs => leVal (bs.take w) :: readFields ws (bs.drop w)

/-- Building a structure's memory by assigning every field: each value is laid
out little-endian in its declared width.  Models constructing a ctypes object
via its schema (assigning all fields). -/
def writeFields : List Nat → List Nat → List Nat
  | w :: ws, v :: vs => leBytes w v ++ writeFields ws vs
  | _, _ => []

/-- A value list is valid for a schema when it has one value per field and each
value fits in its field's width (what a ctypes field can hold). -/
def validFields : List Nat → List Nat → Bool
  | [], [] => true
  | w :: ws, v :: vs => decide (v < 2 ^ (8 * w)) && validFields ws vs
  | _, _ => false

theorem writeFields_length (ws vs : List Nat) (h : validFields ws vs = true) :
    (writeFields ws vs).length = structSize ws := by
  induction ws generalizing vs with
  | nil =>
    cases vs with
    | nil => rfl
    | cons v vs => simp [validFields] at h
  | cons w ws ih =>
    cases vs with
    | nil => simp [validFields] at h
    | cons v vs =>
      simp only [validFields, Bool.and_eq_true] at h
      simp only [writeFields, List.length_append, leBytes_length, structSize,
        List.sum_cons]
      rw [ih vs h.2]
      rfl

theorem readFields_writeFields (ws vs : List Nat)
    (h : validFields ws vs = true) :
    readFields ws (writeFields ws vs) = vs := by
  induction ws generalizing vs with
  | nil =>
    cases vs with
    | nil => rfl
    | cons v vs => simp [validFields] at h
  | cons w ws ih =>
    cases vs with
    | nil => simp [validFields] at h
    | cons v vs =>
      simp only [validFields, Bool.and_eq_true, decide_eq_true_eq] at h
      simp only [writeFields, readFields]
      have hlen : (leBytes w v).length = w := leBytes_length w v
      rw [List.take_left' hlen, List.drop_left' hlen]
      rw [leVal_leBytes w v h.1, ih vs h.2]

/-! ## The ctypes object model

`Packet(ctypes.LittleEndianStructure, PacketMixin)` objects are contiguous
memory regions; `from_buffer_copy` fills that memory from a buffer and
`bytes(self)` reads it back out. -/

/-- The one failure mode of `ctypes.Structure.from_buffer_copy`: it raises
`ValueError("Buffer size too small ...")` when the buffer is shorter than
`ctypes.sizeof(cls)`.  This is the error kind the spec calls
`TruncatedBufferError`. -/
inductive DecodeError where
  | bufferTooSmall : DecodeError
deriving DecidableEq

/-- A decoded ctypes packet object: its contiguous memory. -/
structure DecodedPacket where
  mem : List Nat
deriving DecidableEq

/-- `cls.from_buffer_copy(buffer)`: if the buffer holds at least
`ctypes.sizeof(cls)` (= `sz`) bytes, copy the first `sz` bytes into a fresh
object; otherwise raise `ValueError` without producing any object. -/
def from_buffer_copy (sz : Nat) (buffer : List Nat) : Except DecodeError DecodedPacket :=
  if sz ≤ buffer.length then .ok ⟨buffer.take sz⟩ else .error .bufferTooSmall

/-- `PacketMixin.pack`, i.e. `bytes(self)`: the object's memory. -/
def PacketMixin_pack (p : DecodedPacket) : List Nat := p.mem

/-! ## Packet classes

Each `_fields_` table from `src/telemetry_f1_2021/packets.py` is transcribed
as its flattened list of field widths in bytes (a ctypes array field of `n`
elements contributes `n` copies of the element's widths). -/

/-- A ctypes array field `elem * n`: `n` consecutive copies of the element's
flattened widths. -/
def arrayOf (n : Nat) (elem : List Nat) : List Nat := (List.replicate n elem).flatten

/-- `PacketHeader._fields_`: u16, u8, u8, u8, u8, u64, f32, u32, u8, u8. -/
def PacketHeader_widths : List Nat := [2, 1, 1, 1, 1, 8, 4, 4, 1, 1]

/-- `CarMotionData._fields_`: 6 f32, 6 i16, 6 f32. -/
def CarMotionData_widths : List Nat :=
  [4, 4, 4, 4, 4, 4, 2, 2, 2, 2, 2, 2, 4, 4, 4, 4, 4, 4]

/-- `PacketMotionData._fields_`: header, `CarMotionData * 22`, five wheel
arrays `c_float * 4` (suspension position/velocity/acceleration, wheel speed,
wheel slip), then 10 scalar f32 fields (local velocity xyz, angular velocity
xyz, angular acceleration xyz, front wheels angle). -/
def PacketMotionData_widths : List Nat :=
  PacketHeader_widths ++ arrayOf 22 CarMotionData_widths
    ++ List.replicate 4 4    -- m_suspension_position
    ++ List.replicate 4 4    -- m_suspension_velocity
    ++ List.replicate 4 4    -- m_suspension_acceleration
    ++ List.replicate 4 4    -- m_wheel_speed
    ++ List.replicate 4 4    -- m_wheel_slip
    ++ [4, 4, 4, 4, 4, 4, 4, 4, 4, 4]

/-- `MarshalZone._fields_`: f32, i8. -/
def MarshalZone_widths : List Nat := [4, 1]

/-- `WeatherForecastSample._fields_`: u8, u8, u8, i8, i8, i8, i8, u8. -/
def WeatherForecastSample_widths : List Nat := [1, 1, 1, 1, 1, 1, 1, 1]

/-- `PacketSessionData._fields_`. -/
def PacketSessionData_widths : List Nat :=
  PacketHeader_widths
    ++ [1, 1, 1, 1, 2, 1, 1, 1, 2, 2, 1, 1, 1, 1, 1, 1]
    -- weather .. m_num_marshal_zones
    ++ arrayOf 21 MarshalZone_widths
    ++ [1, 1, 1]             -- safety car status, network game, num samples
    ++ arrayOf 56 WeatherForecastSample_widths
    ++ [1, 1, 4, 4, 4, 1, 1, 1, 1, 1, 1, 1, 1, 1, 1, 1, 1]
    -- forecast accuracy .. dynamic racing line type

/-- `LapData._fields_` (per-car): u32, u32, u16, u16, f32, f32, f32,
14 single-byte fields, u16, u16, u8. -/
def LapData_widths : List Nat :=
  [4, 4, 2, 2, 4, 4, 4] ++ List.replicate 14 1 ++ [2, 2, 1]

/-- `PacketLapData._fields_`: header, `LapData * 22`. -/
def PacketLapData_widths : List Nat :=
  PacketHeader_widths ++ arrayOf 22 LapData_widths

/-- `FastestLap._fields_`: u8 vehicle index, f32 lap time. -/
def FastestLap_widths : List Nat := [1, 4]

/-- `Retirement._fields_`: u8 vehicle index. -/
def Retirement_widths : List Nat := [1]

/-- `TeamMateInPits._fields_`: u8 vehicle index. -/
def TeamMateInPits_widths : List Nat := [1]

/-- `RaceWinner._fields_`: u8 vehicle index. -/
def RaceWinner_widths : List Nat := [1]

/-- `Penalty._fields_`: 7 u8 fields. -/
def Penalty_widths : List Nat := [1, 1, 1, 1, 1, 1, 1]

/-- `SpeedTrap._fields_`: u8, f32, u8, u8. -/
def SpeedTrap_widths : List Nat := [1, 4, 1, 1]

/-- `StartLights._fields_`: u8 num lights. -/
def StartLights_widths : List Nat := [1]

/-- `DriveThroughPenaltyServed._fields_`: u8 vehicle index. -/
def DriveThroughPenaltyServed_widths : List Nat := [1]

/-- `StopGoPenaltyServed._fields_`: u8 vehicle index. -/
def StopGoPenaltyServed_widths : List Nat := [1]

/-- `Flashback._fields_`: u32 frame identifier, f32 session time. -/
def Flashback_widths : List Nat := [4, 4]

/-- `Buttons._fields_`: u32 button status. -/
def Buttons_widths : List Nat := [4]

/-- `ctypes.sizeof(EventDataDetails)`: the union of the 11 event shapes
occupies one shared region whose size is the maximum member size (all members
are `_pack_ = 1` structures, so the union has alignment 1 and no tail
padding). -/
def EventDataDetails_size : Nat :=
  ([FastestLap_widths, Retirement_widths, TeamMateInPits_widths,
    RaceWinner_widths, Penalty_widths, SpeedTrap_widths, StartLights_widths,
    DriveThroughPenaltyServed_widths, StopGoPenaltyServed_widths,
    Flashback_widths, Buttons_widths].map structSize).foldr Nat.max 0

/-- `PacketEventData._fields_`: header, `c_uint8 * 4` event string code, and
the `EventDataDetails` union, which at the memory level is one shared region of
`EventDataDetails_size` bytes. -/
def PacketEventData_widths : List Nat :=
  PacketHeader_widths ++ [1, 1, 1, 1] ++ [EventDataDetails_size]

/-- `ParticipantData._fields_`: 7 u8 fields, `c_char * 48` name (one 48-byte
region), u8. -/
def ParticipantData_widths : List Nat := [1, 1, 1, 1, 1, 1, 1, 48, 1]

/-- `PacketParticipantsData._fields_`: header, u8 num active cars,
`ParticipantData * 22`. -/
def PacketParticipantsData_widths : List Nat :=
  PacketHeader_widths ++ [1] ++ arrayOf 22 ParticipantData_widths

/-- `CarSetupData._fields_`: 4 u8, 4 f32, 8 u8, 4 f32, u8, f32. -/
def CarSetupData_widths : List Nat :=
  [1, 1, 1, 1, 4, 4, 4, 4, 1, 1, 1, 1, 1, 1, 1, 1, 4, 4, 4, 4, 1, 4]

/-- `PacketCarSetupData._fields_`: header, `CarSetupData * 22`. -/
def PacketCarSetupData_widths : List Nat :=
  PacketHeader_widths ++ arrayOf 22 CarSetupData_widths

/-- `CarTelemetryData._fields_`: u16, f32, f32, f32, u8, i8, u16, u8, u8, u16,
`u16 * 4`, `u8 * 4`, `u8 * 4`, u16, `f32 * 4`, `u8 * 4`. -/
def CarTelemetryData_widths : List Nat :=
  [2, 4, 4, 4, 1, 1, 2, 1, 1, 2]
    ++ List.replicate 4 2    -- m_brakes_temperature
    ++ List.replicate 4 1    -- m_tyres_surface_temperature
    ++ List.replicate 4 1    -- m_tyres_inner_temperature
    ++ [2]                   -- m_engine_temperature
    ++ List.replicate 4 4    -- m_tyres_pressure
    ++ List.replicate 4 1    -- m_surface_type

/-- `PacketCarTelemetryData._fields_`: header, `CarTelemetryData * 22`, u8,
u8, i8. -/
def PacketCarTelemetryData_widths : List Nat :=
  PacketHeader_widths ++ arrayOf 22 CarTelemetryData_widths ++ [1, 1, 1]

/-- `CarStatusData._fields_`. -/
def CarStatusData_widths : List Nat :=
  [1, 1, 1, 1, 1,          -- traction control .. pit limiter status
   4, 4, 4,                -- fuel in tank, fuel capacity, fuel remaining laps
   2, 2,                   -- max rpm, idle rpm
   1, 1,                   -- max gears, drs allowed
   2,                      -- drs activation distance
   1, 1, 1,                -- actual / visual tyre compound, tyres age laps
   1,                      -- vehicle fia flags (i8)
   4,                      -- ers store energy
   1,                      -- ers deploy mode
   4, 4, 4,                -- ers harvested mguk / mguh, ers deployed
   1]                      -- network paused

/-- `PacketCarStatusData._fields_`: header, `CarStatusData * 22`. -/
def PacketCarStatusData_widths : List Nat :=
  PacketHeader_widths ++ arrayOf 22 CarStatusData_widths

/-- `FinalClassificationData._fields_`: 6 u8, u32, f64, 3 u8, `u8 * 8`,
`u8 * 8`. -/
def FinalClassificationData_widths : List Nat :=
  [1, 1, 1, 1, 1, 1, 4, 8, 1, 1, 1]
    ++ List.replicate 8 1 ++ List.replicate 8 1

/-- `PacketFinalClassificationData._fields_`: header, u8 num cars,
`FinalClassificationData * 22`. -/
def PacketFinalClassificationData_widths : List Nat :=
  PacketHeader_widths ++ [1] ++ arrayOf 22 FinalClassificationData_widths

/-- `LobbyInfoData._fields_`: u8, u8, u8, `c_char * 48`, u8, u8. -/
def LobbyInfoData_widths : List Nat := [1, 1, 1, 48, 1, 1]

/-- `PacketLobbyInfoData._fields_`: header, u8 num players,
`LobbyInfoData * 22`. -/
def PacketLobbyInfoData_widths : List Nat :=
  PacketHeader_widths ++ [1] ++ arrayOf 22 LobbyInfoData_widths

/-- `CarDamageData._fields_`: `f32 * 4`, `u8 * 4`, `u8 * 4`, 15 u8. -/
def CarDamageData_widths : List Nat :=
  List.replicate 4 4 ++ List.replicate 4 1 ++ List.replicate 4 1
    ++ List.replicate 15 1

/-- `PacketCarDamageData._fields_`: header, `CarDamageData * 22`. -/
def PacketCarDamageData_widths : List Nat :=
  PacketHeader_widths ++ arrayOf 22 CarDamageData_widths

/-- `LapHistoryData._fields_`: u32, u16, u16, u16, u8. -/
def LapHistoryData_widths : List Nat := [4, 2, 2, 2, 1]

/-- `TyreStintHistoryData._fields_`: u8, u8, u8. -/
def TyreStintHistoryData_widths : List Nat := [1, 1, 1]

/-- `PacketSessionHistoryData._fields_`: header, 7 u8 fields,
`LapHistoryData * 100`, `TyreStintHistoryData * 8`. -/
def PacketSessionHistoryData_widths : List Nat :=
  PacketHeader_widths ++ [1, 1, 1, 1, 1, 1, 1]
    ++ arrayOf 100 LapHistoryData_widths
    ++ arrayOf 8 TyreStintHistoryData_widths

/-- A registered packet class: its Python class name and the flattened widths
of its `_fields_` table. -/
structure PacketClass where
  name : String
  widths : List Nat
deriving DecidableEq

/-- `ctypes.sizeof(cls)`, i.e. `PacketMixin.size`. -/
def PacketMixin_size (c : PacketClass) : Nat := structSize c.widths

/-- `PacketMixin.unpack`, i.e. `cls.from_buffer_copy(buffer)`. -/
def PacketMixin_unpack (c : PacketClass) (buffer : List Nat) :
    Except DecodeError DecodedPacket :=
  from_buffer_copy (PacketMixin_size c) buffer

/-- Constructing a ctypes object of class `c` via its schema, assigning the
value list `vs` to its fields. -/
def ctypes_construct (c : PacketClass) (vs : List Nat) : DecodedPacket :=
  ⟨writeFields c.widths vs⟩

/-- Reading all fields of a decoded object of class `c`. -/
def ctypes_read_fields (c : PacketClass) (p : DecodedPacket) : List Nat :=
  readFields c.widths p.mem

def PacketMotionData_class : PacketClass :=
  ⟨"PacketMotionData", PacketMotionData_widths⟩
def PacketSessionData_class : PacketClass :=
  ⟨"PacketSessionData", PacketSessionData_widths⟩
def PacketLapData_class : PacketClass :=
  ⟨"PacketLapData", PacketLapData_widths⟩
def PacketEventData_class : PacketClass :=
  ⟨"PacketEventData", PacketEventData_widths⟩
def PacketParticipantsData_class : PacketClass :=
  ⟨"PacketParticipantsData", PacketParticipantsData_widths⟩
def PacketCarSetupData_class : PacketClass :=
  ⟨"PacketCarSetupData", PacketCarSetupData_widths⟩
def PacketCarTelemetryData_class : PacketClass :=
  ⟨"PacketCarTelemetryData", PacketCarTelemetryData_widths⟩
def PacketCarStatusData_class : PacketClass :=
  ⟨"PacketCarStatusData", PacketCarStatusData_widths⟩
def PacketFinalClassificationData_class : PacketClass :=
  ⟨"PacketFinalClassificationData", PacketFinalClassificationData_widths⟩
def PacketLobbyInfoData_class : PacketClass :=
  ⟨"PacketLobbyInfoData", PacketLobbyInfoData_widths⟩
def PacketCarDamageData_class : PacketClass :=
  ⟨"PacketCarDamageData", PacketCarDamageData_widths⟩
def PacketSessionHistoryData_class : PacketClass :=
  ⟨"PacketSessionHistoryData", PacketSessionHistoryData_widths⟩

/-- The module-level dispatch table `HEADER_FIELD_TO_PACKET_TYPE`, in source
order: `(packet_format, packet_version, packet_id)` → packet class. -/
def HEADER_FIELD_TO_PACKET_TYPE : List ((Nat × Nat × Nat) × PacketClass) :=
  [((2021, 1, 0), PacketMotionData_class),
   ((2021, 1, 1), PacketSessionData_class),
   ((2021, 1, 2), PacketLapData_class),
   ((2021, 1, 3), PacketEventData_class),
   ((2021, 1, 4), PacketParticipantsData_class),
   ((2021, 1, 5), PacketCarSetupData_class),
   ((2021, 1, 6), PacketCarTelemetryData_class),
   ((2021, 1, 7), PacketCarStatusData_class),
   ((2021, 1, 8), PacketFinalClassificationData_class),
   ((2021, 1, 9), PacketLobbyInfoData_class),
   ((2021, 1, 10), PacketCarDamageData_class),
   ((2021, 1, 11), PacketSessionHistoryData_class)]

/-- Python `dict` indexing `HEADER_FIELD_TO_PACKET_TYPE[key]` (all keys in the
table are distinct): `some` on a present key, `none` models the `KeyError`
raised on an absent key — the error kind the spec calls `UnknownPacketError`. -/
def dictGet (table : List ((Nat × Nat × Nat) × PacketClass))
    (key : Nat × Nat × Nat) : Option PacketClass :=
  match table with
  | [] => none
  | (k, v) :: rest => if k = key then some v else dictGet rest key

/-! ## The formatter (`PacketMixin.to_dict` / `_format_type`)

`to_dict` walks `_fields_` in declaration order and formats each value:
Python `float`s are rounded (presentation only), `bytes` values (from
`c_char * n` fields, truncated at the first NUL by the ctypes getter) are
decoded as strict UTF-8 — which can raise `UnicodeDecodeError` — and nested
structures recurse into their own `to_dict`. -/

/-- A formatted field value as produced by `_format_type`.  A `c_float` field
is read back as a Python float and rounded to 3 decimals; that lossy
presentation value is represented here by the raw 4 little-endian bytes it was
read from (no claim reasons about the rounded decimal itself).  All integer
fields of the classes modelled below are unsigned, so `intv` carries a `Nat`. -/
inductive FVal where
  | intv : Nat → FVal
  | floatBits : Nat → FVal
  | strv : String → FVal
  | dictv : List (String × FVal) → FVal

/-- A UTF-8 continuation byte (`0x80`–`0xBF`). -/
def isCont (b : Nat) : Bool := 0x80 ≤ b && b ≤ 0xBF

/-- Strict UTF-8 decoding to a list of code points, as Python's
`bytes.decode()` performs it: 1–4 byte sequences, continuation bytes in
`0x80`–`0xBF`, no overlong encodings (leaders `0xC0`/`0xC1` rejected, `0xE0`
requires second byte ≥ `0xA0`, `0xF0` requires second byte ≥ `0x90`), no
surrogates (`0xED` requires second byte ≤ `0x9F`), nothing above `U+10FFFF`
(leaders above `0xF4` rejected, `0xF4` requires second byte ≤ `0x8F`).
`none` models `UnicodeDecodeError`. -/
def utf8Decode : List Nat → Option (List Nat)
  | [] => some []
  | b1 :: rest =>
    if b1 ≤ 0x7F then
      (utf8Decode rest).map (b1 :: ·)
    else if 0xC2 ≤ b1 && b1 ≤ 0xDF then
      match rest with
      | b2 :: rest2 =>
        if isCont b2 then
          (utf8Decode rest2).map (((b1 - 0xC0) * 0x40 + (b2 - 0x80)) :: ·)
        else none
      | [] => none
    else if 0xE0 ≤ b1 && b1 ≤ 0xEF then
      match rest with
      | b2 :: b3 :: rest3 =>
        if ((if b1 = 0xE0 then 0xA0 else 0x80) ≤ b2
              && b2 ≤ (if b1 = 0xED then 0x9F else 0xBF))
            && isCont b3 then
          (utf8Decode rest3).map
            (((b1 - 0xE0) * 0x1000 + (b2 - 0x80) * 0x40 + (b3 - 0x80)) :: ·)
        else none
      | _ => none
    else if 0xF0 ≤ b1 && b1 ≤ 0xF4 then
      match rest with
      | b2 :: b3 :: b4 :: rest4 =>
        if ((if b1 = 0xF0 then 0x90 else 0x80) ≤ b2
              && b2 ≤ (if b1 = 0xF4 then 0x8F else 0xBF))
            && isCont b3 && isCont b4 then
          (utf8Decode rest4).map
            (((b1 - 0xF0) * 0x40000 + (b2 - 0x80) * 0x1000
                + (b3 - 0x80) * 0x40 + (b4 - 0x80)) :: ·)
        else none
      | _ => none
    else none

/-- Python `bytes.decode()`: strict UTF-8 to a string. -/
def bytes_decode (bs : List Nat) : Option String :=
  (utf8Decode bs).map (fun cps => String.mk (cps.map Char.ofNat))

/-- The ctypes getter of a `c_char * n` field: the stored bytes truncated at
the first NUL byte (all `n` bytes when no NUL is present). -/
def ctypes_char_array_value (region : List Nat) : List Nat :=
  region.takeWhile (fun b => b ≠ 0)

/-! `to_dict` of each `EventDataDetails` union member, reading from the shared
union memory (every member starts at offset 0 of the union region). -/

/-- `FastestLap.to_dict`. -/
def FastestLap_to_dict (mem : List Nat) : List (String × FVal) :=
  [("m_vehicle_idx", .intv (leVal (mem.take 1))),
   ("m_lap_time", .floatBits (leVal ((mem.drop 1).take 4)))]

/-- `Retirement.to_dict`. -/
def Retirement_to_dict (mem : List Nat) : List (String × FVal) :=
  [("m_vehicle_idx", .intv (leVal (mem.take 1)))]

/-- `TeamMateInPits.to_dict`. -/
def TeamMateInPits_to_dict (mem : List Nat) : List (String × FVal) :=
  [("m_vehicle_idx", .intv (leVal (mem.take 1)))]

/-- `RaceWinner.to_dict`. -/
def RaceWinner_to_dict (mem : List Nat) : List (String × FVal) :=
  [("m_vehicle_idx", .intv (leVal (mem.take 1)))]

/-- `Penalty.to_dict`. -/
def Penalty_to_dict (mem : List Nat) : List (String × FVal) :=
  [("m_penalty_type", .intv (leVal (mem.take 1))),
   ("m_infringement_type", .intv (leVal ((mem.drop 1).take 1))),
   ("m_vehicle_idx", .intv (leVal ((mem.drop 2).take 1))),
   ("m_other_vehicle_idx", .intv (leVal ((mem.drop 3).take 1))),
   ("m_time", .intv (leVal ((mem.drop 4).take 1))),
   ("m_lap_num", .intv (leVal ((mem.drop 5).take 1))),
   ("m_places_gained", .intv (leVal ((mem.drop 6).take 1)))]

/-- `SpeedTrap.to_dict`. -/
def SpeedTrap_to_dict (mem : List Nat) : List (String × FVal) :=
  [("m_vehicle_idx", .intv (leVal (mem.take 1))),
   ("m_speed", .floatBits (leVal ((mem.drop 1).take 4))),
   ("m_overall_fastest_in_session", .intv (leVal ((mem.drop 5).take 1))),
   ("m_driver_fastest_in_session", .intv (leVal ((mem.drop 6).take 1)))]

/-- `StartLights.to_dict`. -/
def StartLights_to_dict (mem : List Nat) : List (String × FVal) :=
  [("m_num_lights", .intv (leVal (mem.take 1)))]

/-- `DriveThroughPenaltyServed.to_dict`. -/
def DriveThroughPenaltyServed_to_dict (mem : List Nat) : List (String × FVal) :=
  [("m_vehicle_idx", .intv (leVal (mem.take 1)))]

/-- `StopGoPenaltyServed.to_dict`. -/
def StopGoPenaltyServed_to_dict (mem : List Nat) : List (String × FVal) :=
  [("m_vehicle_idx", .intv (leVal (mem.take 1)))]

/-- `Flashback.to_dict`. -/
def Flashback_to_dict (mem : List Nat) : List (String × FVal) :=
  [("m_flashback_frame_identifier", .intv (leVal (mem.take 4))),
   ("m_flashback_session_time", .floatBits (leVal ((mem.drop 4).take 4)))]

/-- `Buttons.to_dict`. -/
def Buttons_to_dict (mem : List Nat) : List (String × FVal) :=
  [("m_button_status", .intv (leVal (mem.take 4)))]

/-- `EventDataDetails.to_dict` (inherited from `PacketMixin`): iterates the
union's `_fields_` — all 11 members — and formats each one; every member is a
nested structure, so each is rendered by its own `to_dict` over the shared
union memory. -/
def EventDataDetails_to_dict (mem : List Nat) : List (String × FVal) :=
  [("m_fastest_lap", .dictv (FastestLap_to_dict mem)),
   ("m_retirement", .dictv (Retirement_to_dict mem)),
   ("m_team_mate_in_pits", .dictv (TeamMateInPits_to_dict mem)),
   ("m_race_winner", .dictv (RaceWinner_to_dict mem)),
   ("m_penalty", .dictv (Penalty_to_dict mem)),
   ("m_speed_trap", .dictv (SpeedTrap_to_dict mem)),
   ("m_start_lights", .dictv (StartLights_to_dict mem)),
   ("m_drive_through_penalty_served",
     .dictv (DriveThroughPenaltyServed_to_dict mem)),
   ("m_stop_go_penalty_served", .dictv (StopGoPenaltyServed_to_dict mem)),
   ("m_flashback", .dictv (Flashback_to_dict mem)),
   ("m_buttons", .dictv (Buttons_to_dict mem))]

/-- The nested `ParticipantData` class (not registered at top level). -/
def ParticipantData_class : PacketClass :=
  ⟨"ParticipantData", ParticipantData_widths⟩

/-- The error a `to_dict` call can raise: `bytes.decode()` on a `c_char * n`
field whose NUL-truncated content is not valid UTF-8 raises
`UnicodeDecodeError` (uncaught by `to_dict`). -/
inductive FormatError where
  | unicodeDecodeError : FormatError
deriving DecidableEq

/-- `ParticipantData.to_dict`: formats the 7 leading u8 fields, the 48-byte
`m_name` field (ctypes getter truncates at the first NUL, then
`bytes.decode()` — which can raise), and the trailing u8 field.  The dict
comprehension aborts with the `UnicodeDecodeError` when the name bytes are not
valid UTF-8; no partial mapping is returned. -/
def ParticipantData_to_dict (p : DecodedPacket) :
    Except FormatError (List (String × FVal)) :=
  match bytes_decode (ctypes_char_array_value ((p.mem.drop 7).take 48)) with
  | none => .error .unicodeDecodeError
  | some name =>
    .ok [("m_ai_controlled", .intv (leVal (p.mem.take 1))),
         ("m_driver_id", .intv (leVal ((p.mem.drop 1).take 1))),
         ("m_network_id", .intv (leVal ((p.mem.drop 2).take 1))),
         ("m_team_id", .intv (leVal ((p.mem.drop 3).take 1))),
         ("m_my_team", .intv (leVal ((p.mem.drop 4).take 1))),
         ("m_race_number", .intv (leVal ((p.mem.drop 5).take 1))),
         ("m_nationality", .intv (leVal ((p.mem.drop 6).take 1))),
         ("m_name", .strv name),
         ("m_your_telemetry", .intv (leVal ((p.mem.drop 55).take 1)))]

/-! ## Theorems for the claims -/

theorem dictGet_eq_none_of_not_mem
    (table : List ((Nat × Nat × Nat) × PacketClass)) (key : Nat × Nat × Nat)
    (h : key ∉ table.map Prod.fst) : dictGet table key = none := by
  induction table with
  | nil => rfl
  | cons kv rest ih =>
    simp only [List.map_cons, List.mem_cons, not_or] at h
    obtain ⟨h1, h2⟩ := h
    obtain ⟨k, v⟩ := kv
    unfold dictGet
    rw [if_neg (fun he => h1 he.symm)]
    exact ih h2

/-- **C1**: for every packet class registered in `HEADER_FIELD_TO_PACKET_TYPE`,
`pack` and `unpack` are mutual inverses: unpacking a buffer of exactly
`size()` bytes and packing the result returns the buffer unchanged, and a
value constructed via the class's schema (assigning every field an in-range
value) survives a pack/unpack round trip, with every field reading back the
assigned value. -/
theorem c1_pack_unpack_round_trip
    (kc : (Nat × Nat × Nat) × PacketClass)
    (hk : kc ∈ HEADER_FIELD_TO_PACKET_TYPE)
    (buffer : List Nat) (hbuf : buffer.length = PacketMixin_size kc.2)
    (vs : List Nat) (hvs : validFields kc.2.widths vs = true) :
    (PacketMixin_unpack kc.2 buffer).map PacketMixin_pack = .ok buffer ∧
    PacketMixin_unpack kc.2 (PacketMixin_pack (ctypes_construct kc.2 vs)) =
      .ok (ctypes_construct kc.2 vs) ∧
    ctypes_read_fields kc.2 (ctypes_construct kc.2 vs) = vs := by
  refine ⟨?_, ?_, ?_⟩
  · unfold PacketMixin_unpack from_buffer_copy
    rw [if_pos (le_of_eq hbuf.symm)]
    have htake : buffer.take (PacketMixin_size kc.2) = buffer := by
      rw [← hbuf]
      exact List.take_length buffer
    simp [Except.map, PacketMixin_pack, htake]
  · have hlen : (writeFields kc.2.widths vs).length = PacketMixin_size kc.2 :=
      writeFields_length _ _ hvs
    unfold PacketMixin_unpack from_buffer_copy PacketMixin_pack ctypes_construct
    rw [if_pos (le_of_eq hlen.symm)]
    have htake :
        (writeFields kc.2.widths vs).take (PacketMixin_size kc.2) =
          writeFields kc.2.widths vs := by
      rw [← hlen]
      exact List.take_length _
    rw [htake]
  · exact readFields_writeFields _ _ hvs

/-- Witness for C1 at the Event packet: a 36-byte zero buffer and an
all-zero schema value. -/
theorem c1_witness :
    ((2021, 1, 3), PacketEventData_class) ∈ HEADER_FIELD_TO_PACKET_TYPE ∧
    (List.replicate 36 0).length = PacketMixin_size PacketEventData_class ∧
    validFields PacketEventData_class.widths (List.replicate 15 0) = true ∧
    ((PacketMixin_unpack PacketEventData_class (List.replicate 36 0)).map
        PacketMixin_pack = .ok (List.replicate 36 0) ∧
      PacketMixin_unpack PacketEventData_class
          (PacketMixin_pack
            (ctypes_construct PacketEventData_class (List.replicate 15 0))) =
        .ok (ctypes_construct PacketEventData_class (List.replicate 15 0)) ∧
      ctypes_read_fields PacketEventData_class
          (ctypes_construct PacketEventData_class (List.replicate 15 0)) =
        List.replicate 15 0) :=
  ⟨by decide, by decide, by decide,
    c1_pack_unpack_round_trip ((2021, 1, 3), PacketEventData_class) (by decide)
      (List.replicate 36 0) (by decide) (List.replicate 15 0) (by decide)⟩

/-- **C2**: for every registered packet class, unpacking a buffer one byte
shorter than `size()` raises the buffer-too-small `ValueError` (the spec's
`TruncatedBufferError`); no partially-filled object is returned. -/
theorem c2_truncation_atomicity
    (kc : (Nat × Nat × Nat) × PacketClass)
    (hk : kc ∈ HEADER_FIELD_TO_PACKET_TYPE)
    (buffer : List Nat) (hbuf : buffer.length + 1 = PacketMixin_size kc.2) :
    PacketMixin_unpack kc.2 buffer = .error .bufferTooSmall := by
  unfold PacketMixin_unpack from_buffer_copy
  rw [if_neg (by omega)]

/-- Witness for C2 at the Event packet: a 35-byte buffer. -/
theorem c2_witness :
    ((2021, 1, 3), PacketEventData_class) ∈ HEADER_FIELD_TO_PACKET_TYPE ∧
    (List.replicate 35 0).length + 1 = PacketMixin_size PacketEventData_class ∧
    PacketMixin_unpack PacketEventData_class (List.replicate 35 0) =
      .error .bufferTooSmall :=
  ⟨by decide, by decide,
    c2_truncation_atomicity ((2021, 1, 3), PacketEventData_class) (by decide)
      (List.replicate 35 0) (by decide)⟩

/-- An Event packet buffer whose 4-byte event code region holds `"XXXX"`
(bytes `88 88 88 88`), which matches no event shape: zero header, the code,
then a zeroed union region. -/
def unknownCodeEventBuffer : List Nat :=
  List.replicate 24 0 ++ [88, 88, 88, 88] ++ List.replicate 8 0

/-- **C3, counterexample**: the code never inspects the event code.  Decoding
the union region and decoding the whole Event packet both succeed on a buffer
whose code is the unknown `"XXXX"` — no `UnknownEventCodeError` is raised
(none exists in the code). -/
theorem c3_counterexample :
    from_buffer_copy EventDataDetails_size (List.replicate 8 0) =
      .ok ⟨List.replicate 8 0⟩ ∧
    PacketMixin_unpack PacketEventData_class unknownCodeEventBuffer =
      .ok ⟨unknownCodeEventBuffer⟩ := by
  constructor
  · rfl
  · rfl

/-- **C3, amended**: `EventDataDetails` is a raw `ctypes.Union`; decoding a
36-byte Event packet buffer succeeds for every 4-byte event code, known or
not, because `from_buffer_copy` copies bytes without interpreting the code. -/
theorem c3_event_decode_ignores_code (code : List Nat) (hcode : code.length = 4) :
    PacketMixin_unpack PacketEventData_class
        (List.replicate 24 0 ++ code ++ List.replicate 8 0) =
      .ok ⟨List.replicate 24 0 ++ code ++ List.replicate 8 0⟩ := by
  have hlen : (List.replicate 24 0 ++ code ++ List.replicate 8 0).length = 36 := by
    simp [hcode]
  have hsz : PacketMixin_size PacketEventData_class = 36 := by decide
  unfold PacketMixin_unpack from_buffer_copy
  rw [hsz]
  rw [if_pos (le_of_eq hlen.symm)]
  have htake : (List.replicate 24 0 ++ code ++ List.replicate 8 0).take 36 =
      List.replicate 24 0 ++ code ++ List.replicate 8 0 := by
    rw [← hlen]
    exact List.take_length _
  rw [htake]

/-- Witness for the amended C3 at the all-zero code. -/
theorem c3_witness :
    ([0, 0, 0, 0] : List Nat).length = 4 ∧
    PacketMixin_unpack PacketEventData_class
        (List.replicate 24 0 ++ [0, 0, 0, 0] ++ List.replicate 8 0) =
      .ok ⟨List.replicate 24 0 ++ [0, 0, 0, 0] ++ List.replicate 8 0⟩ :=
  ⟨by decide, c3_event_decode_ignores_code [0, 0, 0, 0] (by decide)⟩

/-- Union memory holding only the FastestLap shape's bytes (vehicle index 3,
lap-time bits 0) with the remaining 3 bytes zeroed. -/
def fastestLapOnlyUnionMem : List Nat := [3, 0, 0, 0, 0] ++ [0, 0, 0]

/-- **C4, counterexample**: formatting a decoded union via `to_dict` does not
restrict to the resolved shape: on a region holding only FastestLap bytes the
mapping also contains `"m_buttons"`, which is not a FastestLap field. -/
theorem c4_counterexample :
    "m_buttons" ∈ (EventDataDetails_to_dict fastestLapOnlyUnionMem).map Prod.fst ∧
    "m_buttons" ∉ (FastestLap_to_dict fastestLapOnlyUnionMem).map Prod.fst := by
  constructor
  · decide
  · decide

/-- **C4, amended**: `to_dict` of the union iterates its `_fields_`, so the
formatted mapping of any union memory contains exactly the 11 member entries —
every shape's interpretation of the shared bytes, not only the resolved
shape's. -/
theorem c4_union_to_dict_lists_all_members (mem : List Nat) :
    (EventDataDetails_to_dict mem).map Prod.fst =
      ["m_fastest_lap", "m_retirement", "m_team_mate_in_pits", "m_race_winner",
       "m_penalty", "m_speed_trap", "m_start_lights",
       "m_drive_through_penalty_served", "m_stop_go_penalty_served",
       "m_flashback", "m_buttons"] := rfl

/-- **C5**: the dispatch table maps each of the 12 registered
`(2021, 1, id)` triples to exactly the packet class the spec's table names. -/
theorem c5_dispatch_soundness :
    dictGet HEADER_FIELD_TO_PACKET_TYPE (2021, 1, 0) = some PacketMotionData_class ∧
    dictGet HEADER_FIELD_TO_PACKET_TYPE (2021, 1, 1) = some PacketSessionData_class ∧
    dictGet HEADER_FIELD_TO_PACKET_TYPE (2021, 1, 2) = some PacketLapData_class ∧
    dictGet HEADER_FIELD_TO_PACKET_TYPE (2021, 1, 3) = some PacketEventData_class ∧
    dictGet HEADER_FIELD_TO_PACKET_TYPE (2021, 1, 4) = some PacketParticipantsData_class ∧
    dictGet HEADER_FIELD_TO_PACKET_TYPE (2021, 1, 5) = some PacketCarSetupData_class ∧
    dictGet HEADER_FIELD_TO_PACKET_TYPE (2021, 1, 6) = some PacketCarTelemetryData_class ∧
    dictGet HEADER_FIELD_TO_PACKET_TYPE (2021, 1, 7) = some PacketCarStatusData_class ∧
    dictGet HEADER_FIELD_TO_PACKET_TYPE (2021, 1, 8) = some PacketFinalClassificationData_class ∧
    dictGet HEADER_FIELD_TO_PACKET_TYPE (2021, 1, 9) = some PacketLobbyInfoData_class ∧
    dictGet HEADER_FIELD_TO_PACKET_TYPE (2021, 1, 10) = some PacketCarDamageData_class ∧
    dictGet HEADER_FIELD_TO_PACKET_TYPE (2021, 1, 11) = some PacketSessionHistoryData_class := by
  refine ⟨rfl, rfl, rfl, rfl, rfl, rfl, rfl, rfl, rfl, rfl, rfl, rfl⟩

/-- **C6**: looking up any header triple that is not one of the 12 registered
keys raises `KeyError` (the spec's `UnknownPacketError`), modelled as
`none`. -/
theorem c6_unknown_triple_fails (key : Nat × Nat × Nat)
    (h : key ∉ HEADER_FIELD_TO_PACKET_TYPE.map Prod.fst) :
    dictGet HEADER_FIELD_TO_PACKET_TYPE key = none :=
  dictGet_eq_none_of_not_mem _ _ h

/-- Witness for C6 at the unregistered triple `(2021, 1, 12)`. -/
theorem c6_witness :
    ((2021, 1, 12) : Nat × Nat × Nat) ∉ HEADER_FIELD_TO_PACKET_TYPE.map Prod.fst ∧
    dictGet HEADER_FIELD_TO_PACKET_TYPE (2021, 1, 12) = none :=
  ⟨by decide, c6_unknown_triple_fails (2021, 1, 12) (by decide)⟩

/-- **C7, counterexample**: the Motion packet's size is 1464, not
`24 + 22 × 60 + 4×4×4 + 10×4 = 1448` — the claim's formula counts four wheel
arrays where the class declares five. -/
theorem c7_counterexample :
    structSize PacketMotionData_widths = 1464 ∧
    structSize PacketMotionData_widths ≠
      24 + 22 * structSize CarMotionData_widths + 4 * (4 * 4) + 10 * 4 := by
  constructor
  · decide
  · decide

/-- **C7, amended**: Motion size = header (24) + 22 × CarMotionData (60) +
five `c_float * 4` wheel arrays (80) + 10 scalar f32 fields (40) = 1464. -/
theorem c7_motion_size :
    structSize CarMotionData_widths = 60 ∧
    structSize PacketMotionData_widths =
      24 + 22 * structSize CarMotionData_widths + 5 * (4 * 4) + 10 * 4 ∧
    structSize PacketMotionData_widths = 1464 := by
  refine ⟨by decide, by decide, by decide⟩

/-- **C8, counterexample**: the header's field widths `2+1+1+1+1+8+4+4+1+1`
sum to 24, not 23, and decoding a 23-byte buffer fails. -/
theorem c8_counterexample :
    structSize PacketHeader_widths ≠ 23 ∧
    from_buffer_copy (structSize PacketHeader_widths) (List.replicate 23 0) =
      .error .bufferTooSmall := by
  constructor
  · decide
  · rfl

/-- **C8, amended**: the header codec's declared size — the sum of the widths
of its ten fields and the minimum buffer length it accepts — is 24 bytes, and
decoding any buffer of at least 24 bytes succeeds. -/
theorem c8_header_size (buffer : List Nat) (h : 24 ≤ buffer.length) :
    structSize PacketHeader_widths = 24 ∧
    (from_buffer_copy (structSize PacketHeader_widths) buffer).isOk = true := by
  have hsz : structSize PacketHeader_widths = 24 := by decide
  refine ⟨hsz, ?_⟩
  unfold from_buffer_copy
  rw [if_pos (by rw [hsz]; exact h : structSize PacketHeader_widths ≤ buffer.length)]
  rfl

/-- Witness for the amended C8 at a 24-byte buffer. -/
theorem c8_witness :
    24 ≤ (List.replicate 24 0).length ∧
    (structSize PacketHeader_widths = 24 ∧
      (from_buffer_copy (structSize PacketHeader_widths)
          (List.replicate 24 0)).isOk = true) :=
  ⟨by decide, c8_header_size (List.replicate 24 0) (by decide)⟩

/-- The 48-byte `m_name` region: the UTF-8 (here ASCII) bytes of
`"Max Verstappen"` followed by NUL padding. -/
def maxVerstappenNameField : List Nat :=
  [77, 97, 120, 32, 86, 101, 114, 115, 116, 97, 112, 112, 101, 110]
    ++ List.replicate 34 0

/-- A 56-byte `ParticipantData` buffer: seven leading u8 fields, the
`"Max Verstappen"` name region, and the trailing u8 field. -/
def participantBuffer : List Nat :=
  [1, 33, 0, 9, 0, 33, 1] ++ maxVerstappenNameField ++ [1]

/-- **C9**: decoding the `ParticipantData` buffer succeeds; `to_dict` formats
the 48-byte name field to exactly the string `"Max Verstappen"` (the ctypes
getter truncates at the first NUL); and `pack` of the decoded record
reproduces the original buffer — in particular the original 48 padded name
bytes — exactly. -/
theorem c9_text_field_truncation :
    PacketMixin_unpack ParticipantData_class participantBuffer =
      .ok ⟨participantBuffer⟩ ∧
    ParticipantData_to_dict ⟨participantBuffer⟩ =
      .ok [("m_ai_controlled", .intv 1), ("m_driver_id", .intv 33),
           ("m_network_id", .intv 0), ("m_team_id", .intv 9),
           ("m_my_team", .intv 0), ("m_race_number", .intv 33),
           ("m_nationality", .intv 1), ("m_name", .strv "Max Verstappen"),
           ("m_your_telemetry", .intv 1)] ∧
    PacketMixin_pack ⟨participantBuffer⟩ = participantBuffer ∧
    ((PacketMixin_pack ⟨participantBuffer⟩).drop 7).take 48 =
      maxVerstappenNameField := by
  refine ⟨rfl, rfl, rfl, rfl⟩

/-- A 56-byte `ParticipantData` buffer whose name region starts with the byte
`0xFF`, which is not valid in any position of a UTF-8 sequence, followed by a
NUL terminator. -/
def invalidNameParticipantBuffer : List Nat :=
  [1, 33, 0, 9, 0, 33, 1] ++ ([255] ++ List.replicate 47 0) ++ [1]

/-- **C10**: formatting is not total over decoded records: this buffer decodes
successfully, but `to_dict` raises `UnicodeDecodeError` because the name bytes
before the first NUL are not valid UTF-8, so no mapping is returned. -/
theorem c10_to_dict_not_total :
    PacketMixin_unpack ParticipantData_class invalidNameParticipantBuffer =
      .ok ⟨invalidNameParticipantBuffer⟩ ∧
    ParticipantData_to_dict ⟨invalidNameParticipantBuffer⟩ =
      .error .unicodeDecodeError := by
  refine ⟨rfl, rfl⟩
